import Mathlib

/-!
Verification model of the DuckDB parquet viewer backend (`server.py`).

The development shallowly embeds the pieces of `ParquetQueryEngine` that the
downsampling claims are about:

* the schema/type classification helpers (`_is_timestamp_type`,
  `_categorize_type`, `_get_column_type`),
* host-side epoch conversion (`_to_epoch`) over a type of Python runtime
  values,
* the SQL text that `query_data` interpolates and submits to the engine
  (`_build_time_filter`, the count query and the four data queries), and
* the relational semantics of those generated queries over an explicit list
  of rows (ROW_NUMBER ordering, FLOOR-based bucketing, per-bucket MIN/AVG
  aggregation and the final ORDER BY), so that `query_data`'s result record
  (`data`, `total_points`, `returned_points`, `downsampled`,
  `downsample_method`) is a computable function of the table contents.

Conventions of the embedding:

* Engine cell values in the data path are rationals (`ℚ`); DuckDB's DOUBLE
  arithmetic is modelled exactly, which is faithful for the structural
  claims (counts, ordering, which aggregate is used) considered here.
* A timestamp column is modelled by its (totally ordered) native value axis
  together with an abstract conversion `epoch : ℚ → ℚ` for the engine's
  `EPOCH(...)` primitive and `toTs : ℚ → ℚ` for `to_timestamp(...)`;
  theorems that need them assume these are monotone, which DuckDB's
  conversions are.  For non-timestamp time columns the code compares and
  returns raw values, so no conversion appears.
* `ROW_NUMBER() OVER (ORDER BY time)` ranks rows by ascending time; ties are
  broken by an engine-chosen order, which the model fixes as a stable sort
  of the stored row order.
* SQL literal text is rebuilt with the same tokens and quoting as the
  Python f-strings; runs of whitespace/newlines in the f-strings are
  normalised to single spaces, and Python's float formatting of the bounds
  is rendered by `Rat` printing (the claims about the SQL text only concern
  which user-supplied fragments occur in it).
-/

namespace PlotPurr

/-! ## Character and substring utilities

`server.py` classifies column types by case-insensitive substring search
(`dtype.lower()` and Python's `in`).  Lean's `String.toLower` does not reduce
in the kernel, so lowering and substring search are implemented over
`List Char` directly. -/

/-- ASCII lower-casing of one character (what `str.lower` does on the type
names DuckDB produces). -/
def charLower (c : Char) : Char :=
  if 'A' ≤ c ∧ c ≤ 'Z' then Char.ofNat (c.toNat + 32) else c

/-- Lower-case every character of a string. -/
def strLower (s : String) : String :=
  ⟨s.data.map charLower⟩

/-- Does the second character list start with the first? -/
def chPref : List Char → List Char → Bool
  | [], _ => true
  | _ :: _, [] => false
  | a :: as, b :: bs => a == b && chPref as bs

/-- Does the second character list contain the first as a contiguous
sublist? -/
def chSub : List Char → List Char → Bool
  | pat, [] => chPref pat []
  | pat, c :: rest => chPref pat (c :: rest) || chSub pat rest

/-- Python's `pat in s` on strings: contiguous substring containment. -/
def strContains (s pat : String) : Bool :=
  chSub pat.data s.data

/-! ## Schema inspection (`_is_timestamp_type`, `_categorize_type`,
`_get_column_type`)

A file's schema is the ordered association list of column names to native
type names that `DESCRIBE` returns; `_column_types_cache[file]` holds exactly
this mapping. -/

/-- A column descriptor set: column name ↦ native type name. -/
abbrev Schema := List (String × String)

/-- Model of `_is_timestamp_type`: case-insensitive substring match against the four
timestamp keywords. -/
def is_timestamp_type (dtype : String) : Bool :=
  ["timestamp", "datetime", "date", "time"].any fun t =>
    strContains (strLower dtype) t

/-- Model of `_categorize_type`: the frontend category of a native type name. -/
def categorize_type (dtype : String) : String :=
  let l := strLower dtype
  if ["timestamp", "date", "time"].any (fun t => strContains l t) then
    "temporal"
  else if ["int", "float", "double", "decimal", "numeric", "bigint",
      "smallint", "tinyint", "real"].any (fun t => strContains l t) then
    "numeric"
  else if ["varchar", "char", "string", "text"].any
      (fun t => strContains l t) then
    "string"
  else if strContains l "bool" then "boolean"
  else "other"

/-- Model of `_get_column_type`: look the column up in the cached schema, with
`"UNKNOWN"` as the default for a column that is not present.  (The source
consults `self._column_types_cache[file]`, populated by `get_columns`; an
absent column yields `"UNKNOWN"` rather than an error.) -/
def get_column_type (schema : Schema) (column : String) : String :=
  (schema.lookup column).getD "UNKNOWN"

/-- Does the schema contain a column of this name? -/
def schemaHas (schema : Schema) (column : String) : Bool :=
  schema.any fun p => p.1 == column

/-! ## Python runtime values and `_to_epoch`

`_to_epoch` dispatches on the dynamic type of its argument.  For its
purposes a Python value is characterised by: being `None`, a native `int` or
`float`, an object with a `.timestamp()` accessor (returning a float), or
any other object together with the outcome of `float(value)` on it (which
either produces a float or raises). -/

/-- The Python values `_to_epoch` and `_results_to_columnar` can receive. -/
inductive PyVal where
  /-- Python `None`. -/
  | pynone : PyVal
  /-- A native `int`. -/
  | pyint : ℤ → PyVal
  /-- A native `float`. -/
  | pyfloat : ℚ → PyVal
  /-- A non-numeric object with a `.timestamp()` accessor (e.g.
  `datetime.datetime`); the field is the value that accessor returns.
  `float()` raises on such objects. -/
  | tsObj : ℚ → PyVal
  /-- Any other object; the field is `some q` when `float(value)` succeeds
  with `q` (e.g. a numeric string) and `none` when it raises. -/
  | other : Option ℚ → PyVal
deriving DecidableEq

/-- Model of `_to_epoch`: `None ↦ null`; native numbers pass through as floats;
objects with a `.timestamp()` accessor use it; anything else goes through
`float(value)`, which raises (`Except.error`) exactly when the conversion
fails. -/
def to_epoch : PyVal → Except Unit (Option ℚ)
  | .pynone => .ok none
  | .pyint n => .ok (some (n : ℚ))
  | .pyfloat q => .ok (some q)
  | .tsObj e => .ok (some e)
  | .other (some q) => .ok (some q)
  | .other none => .error ()

/-- The per-cell coercion of `_results_to_columnar`: `None` and native
numbers pass through; any other value is given to `float(...)` and on
failure is kept unchanged (the `try/except` keeps `val`). -/
def coerceCell : PyVal → PyVal
  | .other (some q) => .pyfloat q
  | v => v

/-- Model of `_results_to_columnar` (with `is_timestamp=False`, which is what
`query_data` always passes): an empty result set maps every requested
column, time column first, to an empty list; otherwise column `i` of the
output collects cell `i` of every row, coerced. -/
def results_to_columnar (results : List (List PyVal)) (time_col : String)
    (value_cols : List String) : List (String × List PyVal) :=
  if results = [] then
    (time_col, []) :: value_cols.map (fun c => (c, []))
  else
    (time_col :: value_cols).enum.map fun p =>
      (p.2, results.map fun row => coerceCell (row.getD p.1 .pynone))

/-! ## The SQL text submitted to the engine

These definitions rebuild, token for token, the query strings that
`query_data` passes to `self.db.execute`.  User-supplied fragments
(`time_column`, each entry of `value_columns`, the window bounds) are
interpolated exactly where the f-strings put them. -/

/-- Python's rendering of a float bound interpolated by an f-string,
modelled by `Rat` printing (the claims only use which fragments occur in
the SQL, never the exact digits). -/
def formatNum (q : ℚ) : String :=
  toString q

/-- Python's `sep.join(parts)`, used for the SQL select lists and the WHERE
conjunction. -/
def joinStrings (sep : String) : List String → String
  | [] => ""
  | [a] => a
  | a :: rest => a ++ sep ++ joinStrings sep rest

/-- Double-quote an identifier the way the f-strings do (`"{c}"`). -/
def quoteIdent (c : String) : String :=
  "\"" ++ c ++ "\""

/-- Model of `_build_time_filter`: the WHERE clause for the window, comparing the
time column against `to_timestamp(bound)` for timestamp columns and against
the raw bound otherwise; empty when both bounds are absent. -/
def build_time_filter (time_column : String) (start_time end_time : Option ℚ)
    (is_timestamp : Bool) : String :=
  let clauses :=
    (match start_time with
      | some s =>
          if is_timestamp then
            [quoteIdent time_column ++ " >= to_timestamp(" ++ formatNum s ++ ")"]
          else
            [quoteIdent time_column ++ " >= " ++ formatNum s]
      | none => []) ++
    (match end_time with
      | some e =>
          if is_timestamp then
            [quoteIdent time_column ++ " <= to_timestamp(" ++ formatNum e ++ ")"]
          else
            [quoteIdent time_column ++ " <= " ++ formatNum e]
      | none => [])
  if clauses = [] then "" else "WHERE " ++ joinStrings " AND " clauses

/-- Model of `_get_time_select_expr`: epoch-converting SELECT expression for the time
column. -/
def get_time_select_expr (time_column : String) (is_timestamp : Bool) :
    String :=
  if is_timestamp then
    "EPOCH(" ++ quoteIdent time_column ++ ") as " ++ quoteIdent time_column
  else
    quoteIdent time_column

/-- The count query `SELECT COUNT(*) FROM '{filepath}' {where_sql}`. -/
def countQuerySql (filepath where_sql : String) : String :=
  "SELECT COUNT(*) FROM '" ++ filepath ++ "' " ++ where_sql

/-- The `", ".join([f'"{c}"' for c in value_columns])` select list. -/
def valueColsSql (value_cols : List String) : String :=
  joinStrings ", " (value_cols.map quoteIdent)

/-- The non-downsampled query of `query_data`. -/
def plainQuerySql (filepath time_column : String) (value_cols : List String)
    (where_sql : String) (is_timestamp : Bool) : String :=
  "SELECT " ++ get_time_select_expr time_column is_timestamp ++ ", " ++
    valueColsSql value_cols ++ " FROM '" ++ filepath ++ "' " ++ where_sql ++
    " ORDER BY " ++ quoteIdent time_column

/-- The shared `numbered`/`bucketed` CTE text of the three downsampling
queries: rows of the windowed file with `rn = ROW_NUMBER() OVER (ORDER BY
time)`, `total = COUNT(*) OVER ()` and
`bucket = FLOOR((rn - 1) * num_buckets::DOUBLE / NULLIF(total, 0))`. -/
def numberedBucketedCte (filepath time_column : String)
    (value_cols : List String) (where_sql : String) (num_buckets : ℤ) :
    String :=
  "WITH numbered AS ( SELECT " ++ quoteIdent time_column ++ ", " ++
    valueColsSql value_cols ++ ", ROW_NUMBER() OVER (ORDER BY " ++
    quoteIdent time_column ++ ") as rn, COUNT(*) OVER () as total FROM '" ++
    filepath ++ "' " ++ where_sql ++
    " ), bucketed AS ( SELECT *, FLOOR((rn - 1) * " ++ toString num_buckets ++
    "::DOUBLE / NULLIF(total, 0)) as bucket FROM numbered )"

/-- The SQL text of `_downsample_lttb` (with `num_buckets = max_points`). -/
def lttbQuerySql (filepath time_column : String) (value_cols : List String)
    (where_sql : String) (max_points : ℤ) (is_timestamp : Bool) : String :=
  let time_agg :=
    if is_timestamp then
      "EPOCH(MIN(" ++ quoteIdent time_column ++ ")) as bucket_min_time"
    else
      "MIN(" ++ quoteIdent time_column ++ ") as bucket_min_time"
  numberedBucketedCte filepath time_column value_cols where_sql max_points ++
    ", bucket_stats AS ( SELECT bucket, " ++ time_agg ++ ", " ++
    joinStrings ", "
      (value_cols.map fun c => "AVG(" ++ quoteIdent c ++ ") as avg_" ++ c) ++
    " FROM bucketed GROUP BY bucket ) SELECT bucket_min_time as " ++
    quoteIdent time_column ++ ", " ++
    joinStrings ", "
      (value_cols.map fun c => "avg_" ++ c ++ " as " ++ quoteIdent c) ++
    " FROM bucket_stats ORDER BY bucket"

/-- The SQL text of `_downsample_minmax` (with
`num_buckets = max_points // 2`). -/
def minmaxQuerySql (filepath time_column : String) (value_cols : List String)
    (where_sql : String) (max_points : ℤ) (is_timestamp : Bool) : String :=
  let time_output :=
    if is_timestamp then
      "EPOCH(" ++ quoteIdent time_column ++ ") as " ++ quoteIdent time_column
    else
      quoteIdent time_column
  numberedBucketedCte filepath time_column value_cols where_sql
      (max_points.fdiv 2) ++
    ", first_points AS ( SELECT bucket, " ++ time_output ++ ", " ++
    valueColsSql value_cols ++
    ", ROW_NUMBER() OVER (PARTITION BY bucket ORDER BY " ++
    quoteIdent time_column ++ ") as pos FROM bucketed ) SELECT " ++
    quoteIdent time_column ++ ", " ++ valueColsSql value_cols ++
    " FROM first_points WHERE pos = 1 ORDER BY " ++ quoteIdent time_column

/-- The SQL text of `_downsample_avg` (with `num_buckets = max_points`). -/
def avgQuerySql (filepath time_column : String) (value_cols : List String)
    (where_sql : String) (max_points : ℤ) (is_timestamp : Bool) : String :=
  let time_agg :=
    if is_timestamp then
      "EPOCH(MIN(" ++ quoteIdent time_column ++ ")) as " ++
        quoteIdent time_column
    else
      "AVG(" ++ quoteIdent time_column ++ ") as " ++ quoteIdent time_column
  numberedBucketedCte filepath time_column value_cols where_sql max_points ++
    " SELECT " ++ time_agg ++ ", " ++
    joinStrings ", "
      (value_cols.map fun c =>
        "AVG(" ++ quoteIdent c ++ ") as " ++ quoteIdent c) ++
    " FROM bucketed GROUP BY bucket ORDER BY " ++ quoteIdent time_column

/-! ## Relational semantics of the generated queries

The engine's evaluation of the generated SQL over the parquet file is
modelled over an explicit list of rows.  A row carries the native value of
the time column (a rational, ordered as the engine orders the column) and
the values of the requested value columns in request order. -/

/-- One stored row: native time-column value and the value-column cells. -/
structure Row where
  time : ℚ
  vals : List ℚ
deriving DecidableEq, Repr

/-- Ordering of rows by the time column (the `ORDER BY "{time_column}"` of
every generated query). -/
def timeLe (a b : Row) : Prop := a.time ≤ b.time

instance : DecidableRel timeLe := fun a b =>
  inferInstanceAs (Decidable (a.time ≤ b.time))

instance : IsTotal Row timeLe := ⟨fun a b => le_total a.time b.time⟩

instance : IsTrans Row timeLe := ⟨fun _ _ _ h h' => le_trans h h'⟩

/-- Rank rows by ascending time (`ROW_NUMBER() OVER (ORDER BY time)`); the
engine-chosen tie order is fixed as a stable sort of the stored order. -/
def sortByTime (l : List Row) : List Row :=
  l.insertionSort timeLe

/-- Convert a query-window bound into the domain the engine compares it in:
`to_timestamp(bound)` for timestamp columns, the raw epoch number
otherwise. -/
def boundVal (is_timestamp : Bool) (toTs : ℚ → ℚ) (b : ℚ) : ℚ :=
  if is_timestamp then toTs b else b

/-- The window predicate of `_build_time_filter`: conjunction of the two
optional inclusive bounds. -/
def inWindow (is_timestamp : Bool) (toTs : ℚ → ℚ)
    (start_time end_time : Option ℚ) (t : ℚ) : Bool :=
  (match start_time with
    | none => true
    | some s => decide (boundVal is_timestamp toTs s ≤ t)) &&
  (match end_time with
    | none => true
    | some e => decide (t ≤ boundVal is_timestamp toTs e))

/-- The rows of the file that satisfy the WHERE clause. -/
def windowFilter (is_timestamp : Bool) (toTs : ℚ → ℚ)
    (start_time end_time : Option ℚ) (table : List Row) : List Row :=
  table.filter fun r => inWindow is_timestamp toTs start_time end_time r.time

/-- The bucket index `FLOOR((rn - 1) * num_buckets::DOUBLE / NULLIF(total, 0))` for the row
of 0-based sorted index `i` (so `i = rn - 1`); real floor division is
`Int.fdiv` for a positive denominator.  (`total = 0` only happens on an
empty row set, where no row exists to be bucketed.) -/
def bucketOf (num_buckets : ℤ) (total : ℕ) (i : ℕ) : ℤ :=
  ((i : ℤ) * num_buckets).fdiv total

/-- The bucket index of every windowed row, in rank order. -/
def bucketIdxList (num_buckets : ℤ) (rows : List Row) : List ℤ :=
  (List.range rows.length).map (bucketOf num_buckets rows.length)

/-- The distinct bucket values in ascending order (`GROUP BY bucket` plus
`ORDER BY bucket`). -/
def bucketList (num_buckets : ℤ) (rows : List Row) : List ℤ :=
  ((bucketIdxList num_buckets rows).dedup).insertionSort (· ≤ ·)

/-- The rows of one bucket, in rank order. -/
def bucketRows (num_buckets : ℤ) (rows : List Row) (b : ℤ) : List Row :=
  (rows.enum.filter fun p => bucketOf num_buckets rows.length p.1 == b).map
    Prod.snd

/-- Aggregate `MIN` of the time column over a row group (0 on the empty group, which
the aggregation never evaluates). -/
def minTimeD : List Row → ℚ
  | [] => 0
  | r :: rs => rs.foldl (fun acc x => min acc x.time) r.time

/-- Aggregate `AVG` of a list of cells. -/
def meanQ (l : List ℚ) : ℚ :=
  l.sum / l.length

/-- Aggregate `AVG` of one value column (index `j`) over a group. -/
def colAvg (grp : List Row) (j : ℕ) : ℚ :=
  meanQ (grp.map fun r => r.vals.getD j 0)

/-- The averaged value cells of one bucket, for `k` value columns. -/
def avgVals (k : ℕ) (grp : List Row) : List ℚ :=
  (List.range k).map (colAvg grp)

/-- The output form of the time column: `EPOCH(t)` for timestamp columns,
the raw value otherwise. -/
def timeOut (is_timestamp : Bool) (epoch : ℚ → ℚ) (t : ℚ) : ℚ :=
  if is_timestamp then epoch t else t

/-- Evaluation of the non-downsampled query: the windowed rows ordered by
time, with the time column expressed as epoch. -/
def plain_query_eval (epoch : ℚ → ℚ) (is_timestamp : Bool)
    (rows : List Row) : List Row :=
  (sortByTime rows).map fun r => ⟨timeOut is_timestamp epoch r.time, r.vals⟩

/-- Evaluation of `_downsample_lttb`'s query (`num_buckets = max_points`):
one row per occurring bucket, time `=` (epoch of) the bucket's minimum
time, values `=` bucket averages, ordered by bucket. -/
def downsample_lttb_eval (epoch : ℚ → ℚ) (is_timestamp : Bool) (k : ℕ)
    (max_points : ℤ) (rows : List Row) : List Row :=
  let sorted := sortByTime rows
  (bucketList max_points sorted).map fun b =>
    let grp := bucketRows max_points sorted b
    ⟨timeOut is_timestamp epoch (minTimeD grp), avgVals k grp⟩

/-- Evaluation of `_downsample_minmax`'s query
(`num_buckets = max_points // 2`): the first row (by time) of each
occurring bucket, time expressed as epoch, ordered by the output time. -/
def downsample_minmax_eval (epoch : ℚ → ℚ) (is_timestamp : Bool)
    (max_points : ℤ) (rows : List Row) : List Row :=
  let B := max_points.fdiv 2
  let sorted := sortByTime rows
  let firsts := (bucketList B sorted).filterMap fun b =>
    (bucketRows B sorted b).head?
  sortByTime (firsts.map fun r => ⟨timeOut is_timestamp epoch r.time, r.vals⟩)

/-- Evaluation of `_downsample_avg`'s query (`num_buckets = max_points`):
one row per occurring bucket with time `= EPOCH(MIN(time))` for timestamp
columns but `= AVG(time)` for non-timestamp columns, values `=` bucket
averages, ordered by the output time. -/
def downsample_avg_eval (epoch : ℚ → ℚ) (is_timestamp : Bool) (k : ℕ)
    (max_points : ℤ) (rows : List Row) : List Row :=
  let sorted := sortByTime rows
  sortByTime ((bucketList max_points sorted).map fun b =>
    let grp := bucketRows max_points sorted b
    ⟨if is_timestamp then epoch (minTimeD grp)
      else meanQ (grp.map Row.time), avgVals k grp⟩)

/-- The response record of `query_data` (`data` is kept row-oriented here;
`returned_points = len(data[time_column])` equals the row count of the
materialised result). -/
structure QueryResult where
  data : List Row
  total_points : ℕ
  returned_points : ℕ
  downsampled : Bool
  downsample_method : Option String
deriving DecidableEq, Repr

/-- Model of `query_data`: count the windowed rows, serve them verbatim when the
count fits the budget, otherwise dispatch on `downsample_method` —
`"lttb"`, `"minmax"`, and anything else to `_downsample_avg`.  `k` is the
number of requested value columns. -/
def query_data (epoch toTs : ℚ → ℚ) (is_timestamp : Bool) (k : ℕ)
    (table : List Row) (start_time end_time : Option ℚ) (max_points : ℤ)
    (method : String) : QueryResult :=
  let rows := windowFilter is_timestamp toTs start_time end_time table
  let total := rows.length
  if (total : ℤ) ≤ max_points then
    let d := plain_query_eval epoch is_timestamp rows
    ⟨d, total, d.length, false, none⟩
  else
    let d :=
      if method = "lttb" then
        downsample_lttb_eval epoch is_timestamp k max_points rows
      else if method = "minmax" then
        downsample_minmax_eval epoch is_timestamp max_points rows
      else downsample_avg_eval epoch is_timestamp k max_points rows
    ⟨d, total, d.length, true, some method⟩

/-- The SQL texts `query_data` submits to the engine, in submission order:
first the count query, then the data query chosen by the count and the
method.  `is_timestamp` is resolved from the cached schema exactly as
`query_data` does. -/
def plannedQueries (schema : Schema) (filepath time_column : String)
    (value_cols : List String) (start_time end_time : Option ℚ)
    (max_points : ℤ) (method : String) (toTs : ℚ → ℚ) (table : List Row) :
    List String :=
  let isTs := is_timestamp_type (get_column_type schema time_column)
  let where_sql := build_time_filter time_column start_time end_time isTs
  let total := (windowFilter isTs toTs start_time end_time table).length
  let mainQ :=
    if (total : ℤ) ≤ max_points then
      plainQuerySql filepath time_column value_cols where_sql isTs
    else if method = "lttb" then
      lttbQuerySql filepath time_column value_cols where_sql max_points isTs
    else if method = "minmax" then
      minmaxQuerySql filepath time_column value_cols where_sql max_points isTs
    else avgQuerySql filepath time_column value_cols where_sql max_points isTs
  [countQuerySql filepath where_sql, mainQ]

/-- Modelled from the spec (the "avg" strategy's per-bucket output row, with
the non-temporal time aggregate amended from "earliest raw time value" to
the arithmetic mean that the code computes): time `=` epoch of the earliest
time in the bucket for temporal columns and the mean of the raw times
otherwise; each value column `=` the arithmetic mean over the bucket. -/
def avgBucketSpecRow (epoch : ℚ → ℚ) (is_timestamp : Bool) (k : ℕ)
    (grp : List Row) : Row :=
  { time :=
      if is_timestamp then epoch (minTimeD grp) else meanQ (grp.map Row.time),
    vals := (List.range k).map fun j => meanQ (grp.map fun r => r.vals.getD j 0) }

/-! ## Helper lemmas about the engine model -/

theorem sortByTime_perm (l : List Row) : (sortByTime l).Perm l :=
  List.perm_insertionSort _ _

theorem sortByTime_length (l : List Row) : (sortByTime l).length = l.length :=
  (sortByTime_perm l).length_eq

theorem sortByTime_sorted (l : List Row) : List.Sorted timeLe (sortByTime l) :=
  List.sorted_insertionSort _ _

theorem sortByTime_map_time_sorted (l : List Row) :
    List.Sorted (· ≤ ·) ((sortByTime l).map Row.time) :=
  List.pairwise_map.mpr (sortByTime_sorted l)

theorem bucketOf_nonneg {B : ℤ} (hB : 0 ≤ B) (total i : ℕ) :
    0 ≤ bucketOf B total i := by
  unfold bucketOf
  rw [Int.fdiv_eq_ediv _ (by positivity)]
  exact Int.ediv_nonneg (by positivity) (by positivity)

theorem bucketOf_mono {B : ℤ} (hB : 0 ≤ B) (total : ℕ) {i j : ℕ}
    (hij : i ≤ j) : bucketOf B total i ≤ bucketOf B total j := by
  unfold bucketOf
  rw [Int.fdiv_eq_ediv _ (by positivity), Int.fdiv_eq_ediv _ (by positivity)]
  rcases Nat.eq_zero_or_pos total with h0 | hpos
  · subst h0
    simp
  · exact Int.ediv_le_ediv (by exact_mod_cast hpos)
      (mul_le_mul_of_nonneg_right (by exact_mod_cast hij) hB)

theorem bucketOf_lt {B : ℤ} (hB : 1 ≤ B) {total i : ℕ} (hi : i < total) :
    bucketOf B total i < B := by
  unfold bucketOf
  rw [Int.fdiv_eq_ediv _ (by positivity)]
  have htot : (0 : ℤ) < (total : ℤ) := by exact_mod_cast Nat.pos_of_ne_zero (by omega)
  rw [Int.ediv_lt_iff_lt_mul htot]
  have h1 : (i : ℤ) * B ≤ ((total : ℤ) - 1) * B :=
    mul_le_mul_of_nonneg_right (by omega) (by omega)
  nlinarith

theorem mem_bucketList {B : ℤ} {rows : List Row} {b : ℤ} :
    b ∈ bucketList B rows ↔
      ∃ i, i < rows.length ∧ bucketOf B rows.length i = b := by
  unfold bucketList bucketIdxList
  rw [(List.perm_insertionSort _ _).mem_iff, List.mem_dedup, List.mem_map]
  simp [List.mem_range]

theorem bucketList_nodup (B : ℤ) (rows : List Row) :
    (bucketList B rows).Nodup :=
  ((List.perm_insertionSort _ _).nodup_iff).mpr (List.nodup_dedup _)

theorem bucketList_sorted_lt (B : ℤ) (rows : List Row) :
    List.Sorted (· < ·) (bucketList B rows) :=
  List.Sorted.lt_of_le (List.sorted_insertionSort _ _) (bucketList_nodup B rows)

theorem bucketList_length_le {B : ℤ} (hB : 1 ≤ B) (rows : List Row) :
    ((bucketList B rows).length : ℤ) ≤ B := by
  classical
  have hsub : (bucketList B rows).toFinset ⊆ Finset.Ico (0 : ℤ) B := by
    intro b hb
    rw [List.mem_toFinset, mem_bucketList] at hb
    obtain ⟨i, hi, rfl⟩ := hb
    rw [Finset.mem_Ico]
    exact ⟨bucketOf_nonneg (by omega) _ _, bucketOf_lt hB hi⟩
  have hcard := Finset.card_le_card hsub
  rw [List.toFinset_card_of_nodup (bucketList_nodup B rows), Int.card_Ico]
    at hcard
  omega

theorem mem_bucketRows {B : ℤ} {rows : List Row} {b : ℤ} {r : Row} :
    r ∈ bucketRows B rows b ↔
      ∃ i, ∃ _ : i < rows.length,
        bucketOf B rows.length i = b ∧ rows[i] = r := by
  unfold bucketRows
  rw [List.mem_map]
  constructor
  · rintro ⟨⟨i, x⟩, hp, rfl⟩
    rw [List.mem_filter] at hp
    obtain ⟨hpe, hpred⟩ := hp
    obtain ⟨hlt, hx⟩ := List.mem_enum hpe
    exact ⟨i, hlt, by simpa using hpred, hx.symm⟩
  · rintro ⟨i, hi, hb, rfl⟩
    refine ⟨(i, rows[i]), ?_, rfl⟩
    rw [List.mem_filter]
    constructor
    · have hlen : i < rows.enum.length := by
        rw [List.enum_length]
        exact hi
      have := List.getElem_mem hlen
      rwa [List.getElem_enum] at this
    · simpa using hb

theorem bucketRows_ne_nil {B : ℤ} {rows : List Row} {b : ℤ}
    (hb : b ∈ bucketList B rows) : bucketRows B rows b ≠ [] := by
  rw [mem_bucketList] at hb
  obtain ⟨i, hi, hbi⟩ := hb
  intro hnil
  have hmem : rows[i] ∈ bucketRows B rows b :=
    mem_bucketRows.mpr ⟨i, hi, hbi, rfl⟩
  rw [hnil] at hmem
  exact (List.not_mem_nil _) hmem

theorem foldlMin_le_init :
    ∀ (rs : List Row) (a : ℚ),
      rs.foldl (fun acc x => min acc x.time) a ≤ a
  | [], a => le_refl a
  | r :: rs, a =>
    le_trans (foldlMin_le_init rs (min a r.time)) (min_le_left _ _)

theorem foldlMin_le_mem :
    ∀ (rs : List Row) (a : ℚ) (x : Row), x ∈ rs →
      rs.foldl (fun acc y => min acc y.time) a ≤ x.time := by
  intro rs
  induction rs with
  | nil => intro a x hx; exact absurd hx (List.not_mem_nil _)
  | cons r rs ih =>
    intro a x hx
    rcases List.mem_cons.mp hx with rfl | hx
    · exact le_trans (foldlMin_le_init rs _) (min_le_right _ _)
    · exact ih _ _ hx

theorem foldlMin_attained :
    ∀ (rs : List Row) (a : ℚ),
      rs.foldl (fun acc x => min acc x.time) a = a ∨
        ∃ x ∈ rs, rs.foldl (fun acc y => min acc y.time) a = x.time := by
  intro rs
  induction rs with
  | nil => intro a; exact Or.inl rfl
  | cons r rs ih =>
    intro a
    rcases ih (min a r.time) with h | ⟨x, hx, hfx⟩
    · rcases min_choice a r.time with hm | hm
      · exact Or.inl (by rw [List.foldl_cons, h, hm])
      · exact Or.inr ⟨r, List.mem_cons_self r rs, by rw [List.foldl_cons, h, hm]⟩
    · exact Or.inr ⟨x, List.mem_cons_of_mem r hx, by rw [List.foldl_cons, hfx]⟩

theorem minTimeD_le {l : List Row} {r : Row} (hr : r ∈ l) :
    minTimeD l ≤ r.time := by
  cases l with
  | nil => exact absurd hr (List.not_mem_nil _)
  | cons c cs =>
    rcases List.mem_cons.mp hr with h | h
    · subst h
      exact foldlMin_le_init cs _
    · exact foldlMin_le_mem cs _ r h

theorem minTimeD_attained {l : List Row} (hl : l ≠ []) :
    ∃ r ∈ l, minTimeD l = r.time := by
  cases l with
  | nil => exact absurd rfl hl
  | cons c cs =>
    rcases foldlMin_attained cs c.time with h | ⟨x, hx, hfx⟩
    · exact ⟨c, List.mem_cons_self c cs, h⟩
    · exact ⟨x, List.mem_cons_of_mem c hx, hfx⟩

theorem time_le_of_bucket_lt {B : ℤ} (hB : 0 ≤ B) {rows : List Row}
    (hs : List.Sorted timeLe rows) {b1 b2 : ℤ} (hlt : b1 < b2) {r1 r2 : Row}
    (h1 : r1 ∈ bucketRows B rows b1) (h2 : r2 ∈ bucketRows B rows b2) :
    r1.time ≤ r2.time := by
  rw [mem_bucketRows] at h1 h2
  obtain ⟨i, hi, hbi, rfl⟩ := h1
  obtain ⟨j, hj, hbj, rfl⟩ := h2
  have hij : i < j := by
    by_contra hc
    push_neg at hc
    have := bucketOf_mono hB rows.length hc
    rw [hbi, hbj] at this
    omega
  exact List.pairwise_iff_getElem.mp hs i j hi hj hij

theorem lttb_times_sorted (epoch : ℚ → ℚ) (he : Monotone epoch)
    (is_timestamp : Bool) (k : ℕ) {B : ℤ} (hB : 0 ≤ B) (rows : List Row) :
    List.Sorted (· ≤ ·)
      ((downsample_lttb_eval epoch is_timestamp k B rows).map Row.time) := by
  unfold downsample_lttb_eval
  rw [List.map_map]
  apply List.pairwise_map.mpr
  apply (bucketList_sorted_lt B (sortByTime rows)).imp_of_mem
  intro b1 b2 h1 h2 hlt
  have hmin : minTimeD (bucketRows B (sortByTime rows) b1) ≤
      minTimeD (bucketRows B (sortByTime rows) b2) := by
    obtain ⟨r2, hr2, he2⟩ := minTimeD_attained (bucketRows_ne_nil h2)
    obtain ⟨r1, hr1, he1⟩ := minTimeD_attained (bucketRows_ne_nil h1)
    rw [he2]
    exact le_trans (minTimeD_le hr1)
      (time_le_of_bucket_lt hB (sortByTime_sorted rows) hlt hr1 hr2)
  show timeOut is_timestamp epoch _ ≤ timeOut is_timestamp epoch _
  unfold timeOut
  split
  · exact he hmin
  · exact hmin

theorem windowFilter_eq_nil_of_lt (is_timestamp : Bool) (toTs : ℚ → ℚ)
    (hmono : StrictMono toTs) {s e : ℚ} (hlt : e < s) (table : List Row) :
    windowFilter is_timestamp toTs (some s) (some e) table = [] := by
  rw [windowFilter, List.filter_eq_nil_iff]
  intro r _
  have hb : boundVal is_timestamp toTs e < boundVal is_timestamp toTs s := by
    unfold boundVal
    split
    · exact hmono hlt
    · exact hlt
  simp only [inWindow, Bool.and_eq_true, decide_eq_true_eq, not_and]
  intro h1 h2
  linarith

/-! ## Substring lemmas for the generated SQL text -/

theorem chPref_append_self (pat rest : List Char) :
    chPref pat (pat ++ rest) = true := by
  induction pat with
  | nil => rfl
  | cons a as ih => simp [chPref, ih]

theorem chPref_self (pat : List Char) : chPref pat pat = true := by
  simpa using chPref_append_self pat []

theorem chSub_self (pat : List Char) : chSub pat pat = true := by
  cases pat with
  | nil => rfl
  | cons a as =>
    show (chPref (a :: as) (a :: as) || _) = true
    rw [chPref_self]
    exact Bool.true_or _

theorem chSub_append_left {pat r : List Char} (l : List Char)
    (h : chSub pat r = true) : chSub pat (l ++ r) = true := by
  induction l with
  | nil => exact h
  | cons c l ih =>
    show (chPref pat _ || chSub pat (l ++ r)) = true
    rw [ih]
    exact Bool.or_true _

theorem chPref_extend {pat l : List Char} (r : List Char)
    (h : chPref pat l = true) : chPref pat (l ++ r) = true := by
  induction pat generalizing l with
  | nil => rfl
  | cons a as ih =>
    cases l with
    | nil => exact absurd h (by simp [chPref])
    | cons b bs =>
      simp only [chPref, Bool.and_eq_true, beq_iff_eq] at h
      simp only [List.cons_append, chPref, Bool.and_eq_true, beq_iff_eq]
      exact ⟨h.1, ih h.2⟩

theorem chSub_nil_pat (l : List Char) : chSub [] l = true := by
  cases l with
  | nil => rfl
  | cons c rest =>
    show (chPref [] _ || _) = true
    exact Bool.true_or _

theorem chSub_append_right {pat l : List Char} (r : List Char)
    (h : chSub pat l = true) : chSub pat (l ++ r) = true := by
  induction l with
  | nil =>
    have hp : chPref pat [] = true := h
    cases pat with
    | nil => exact chSub_nil_pat r
    | cons a as => exact absurd hp (by simp [chPref])
  | cons c l ih =>
    rcases Bool.or_eq_true_iff.mp h with hp | hs
    · show (chPref pat (c :: l ++ r) || _) = true
      rw [show (c :: l ++ r : List Char) = (c :: l) ++ r from rfl,
        chPref_extend r hp]
      exact Bool.true_or _
    · show (_ || chSub pat (l ++ r)) = true
      rw [ih hs]
      exact Bool.or_true _

theorem strContains_append_of_left {s pat : String} (t : String)
    (h : strContains s pat = true) : strContains (s ++ t) pat = true := by
  unfold strContains at h ⊢
  rw [String.data_append]
  exact chSub_append_right _ h

theorem strContains_append_of_right {t pat : String} (s : String)
    (h : strContains t pat = true) : strContains (s ++ t) pat = true := by
  unfold strContains at h ⊢
  rw [String.data_append]
  exact chSub_append_left _ h

theorem strContains_refl (pat : String) : strContains pat pat = true :=
  chSub_self pat.data

theorem strContains_quoteIdent (c : String) :
    strContains (quoteIdent c) c = true :=
  strContains_append_of_left _ (strContains_append_of_right _ (strContains_refl c))

theorem cte_contains_time_column (filepath time_column : String)
    (value_cols : List String) (where_sql : String) (num_buckets : ℤ) :
    strContains (numberedBucketedCte filepath time_column value_cols
      where_sql num_buckets) time_column = true := by
  unfold numberedBucketedCte
  repeat
    first
      | exact strContains_append_of_right _ (strContains_quoteIdent time_column)
      | apply strContains_append_of_left

theorem plain_sql_contains_time_column (filepath time_column : String)
    (value_cols : List String) (where_sql : String) (is_timestamp : Bool) :
    strContains (plainQuerySql filepath time_column value_cols where_sql
      is_timestamp) time_column = true := by
  unfold plainQuerySql
  apply strContains_append_of_right
  exact strContains_quoteIdent time_column

theorem lttb_sql_contains_time_column (filepath time_column : String)
    (value_cols : List String) (where_sql : String) (max_points : ℤ)
    (is_timestamp : Bool) :
    strContains (lttbQuerySql filepath time_column value_cols where_sql
      max_points is_timestamp) time_column = true := by
  unfold lttbQuerySql
  apply strContains_append_of_left
  apply strContains_append_of_left
  apply strContains_append_of_left
  apply strContains_append_of_left
  apply strContains_append_of_left
  apply strContains_append_of_left
  apply strContains_append_of_left
  apply strContains_append_of_left
  apply strContains_append_of_left
  exact cte_contains_time_column _ _ _ _ _

theorem minmax_sql_contains_time_column (filepath time_column : String)
    (value_cols : List String) (where_sql : String) (max_points : ℤ)
    (is_timestamp : Bool) :
    strContains (minmaxQuerySql filepath time_column value_cols where_sql
      max_points is_timestamp) time_column = true := by
  unfold minmaxQuerySql
  apply strContains_append_of_left
  apply strContains_append_of_left
  apply strContains_append_of_left
  apply strContains_append_of_left
  apply strContains_append_of_left
  apply strContains_append_of_left
  apply strContains_append_of_left
  apply strContains_append_of_left
  apply strContains_append_of_left
  apply strContains_append_of_left
  apply strContains_append_of_left
  apply strContains_append_of_left
  exact cte_contains_time_column _ _ _ _ _

theorem avg_sql_contains_time_column (filepath time_column : String)
    (value_cols : List String) (where_sql : String) (max_points : ℤ)
    (is_timestamp : Bool) :
    strContains (avgQuerySql filepath time_column value_cols where_sql
      max_points is_timestamp) time_column = true := by
  unfold avgQuerySql
  apply strContains_append_of_left
  apply strContains_append_of_left
  apply strContains_append_of_left
  apply strContains_append_of_left
  apply strContains_append_of_left
  apply strContains_append_of_left
  exact cte_contains_time_column _ _ _ _ _

theorem joinStrings_contains {sep s pat : String} :
    ∀ {l : List String}, s ∈ l → strContains s pat = true →
      strContains (joinStrings sep l) pat = true := by
  intro l
  induction l with
  | nil => intro hs _; exact absurd hs (List.not_mem_nil _)
  | cons a rest ih =>
    intro hs h
    cases rest with
    | nil =>
      have := List.mem_singleton.mp hs
      subst this
      exact h
    | cons b bs =>
      rcases List.mem_cons.mp hs with h1 | h1
      · subst h1
        show strContains (s ++ sep ++ joinStrings sep (b :: bs)) pat = true
        exact strContains_append_of_left _ (strContains_append_of_left _ h)
      · show strContains (a ++ sep ++ joinStrings sep (b :: bs)) pat = true
        exact strContains_append_of_right _ (ih h1 h)

theorem valueColsSql_contains {value_cols : List String} {c : String}
    (hc : c ∈ value_cols) : strContains (valueColsSql value_cols) c = true := by
  unfold valueColsSql
  exact joinStrings_contains (List.mem_map_of_mem quoteIdent hc)
    (strContains_quoteIdent c)

theorem cte_contains_value_column (filepath time_column : String)
    {value_cols : List String} (where_sql : String) (num_buckets : ℤ)
    {c : String} (hc : c ∈ value_cols) :
    strContains (numberedBucketedCte filepath time_column value_cols
      where_sql num_buckets) c = true := by
  unfold numberedBucketedCte
  apply strContains_append_of_left
  apply strContains_append_of_left
  apply strContains_append_of_left
  apply strContains_append_of_left
  apply strContains_append_of_left
  apply strContains_append_of_left
  apply strContains_append_of_left
  apply strContains_append_of_left
  apply strContains_append_of_left
  apply strContains_append_of_right
  exact valueColsSql_contains hc

theorem plain_sql_contains_value_column (filepath time_column : String)
    {value_cols : List String} (where_sql : String) (is_timestamp : Bool)
    {c : String} (hc : c ∈ value_cols) :
    strContains (plainQuerySql filepath time_column value_cols where_sql
      is_timestamp) c = true := by
  unfold plainQuerySql
  apply strContains_append_of_left
  apply strContains_append_of_left
  apply strContains_append_of_left
  apply strContains_append_of_left
  apply strContains_append_of_left
  apply strContains_append_of_left
  apply strContains_append_of_right
  exact valueColsSql_contains hc

theorem lttb_sql_contains_value_column (filepath time_column : String)
    {value_cols : List String} (where_sql : String) (max_points : ℤ)
    (is_timestamp : Bool) {c : String} (hc : c ∈ value_cols) :
    strContains (lttbQuerySql filepath time_column value_cols where_sql
      max_points is_timestamp) c = true := by
  unfold lttbQuerySql
  apply strContains_append_of_left
  apply strContains_append_of_left
  apply strContains_append_of_left
  apply strContains_append_of_left
  apply strContains_append_of_left
  apply strContains_append_of_left
  apply strContains_append_of_left
  apply strContains_append_of_left
  apply strContains_append_of_left
  exact cte_contains_value_column _ _ _ _ hc

theorem minmax_sql_contains_value_column (filepath time_column : String)
    {value_cols : List String} (where_sql : String) (max_points : ℤ)
    (is_timestamp : Bool) {c : String} (hc : c ∈ value_cols) :
    strContains (minmaxQuerySql filepath time_column value_cols where_sql
      max_points is_timestamp) c = true := by
  unfold minmaxQuerySql
  apply strContains_append_of_left
  apply strContains_append_of_left
  apply strContains_append_of_left
  apply strContains_append_of_left
  apply strContains_append_of_left
  apply strContains_append_of_left
  apply strContains_append_of_left
  apply strContains_append_of_left
  apply strContains_append_of_left
  apply strContains_append_of_left
  apply strContains_append_of_left
  apply strContains_append_of_left
  exact cte_contains_value_column _ _ _ _ hc

theorem avg_sql_contains_value_column (filepath time_column : String)
    {value_cols : List String} (where_sql : String) (max_points : ℤ)
    (is_timestamp : Bool) {c : String} (hc : c ∈ value_cols) :
    strContains (avgQuerySql filepath time_column value_cols where_sql
      max_points is_timestamp) c = true := by
  unfold avgQuerySql
  apply strContains_append_of_left
  apply strContains_append_of_left
  apply strContains_append_of_left
  apply strContains_append_of_left
  apply strContains_append_of_left
  apply strContains_append_of_left
  exact cte_contains_value_column _ _ _ _ hc

theorem dedup_replicate_succ (n : ℕ) (a : ℤ) :
    (List.replicate (n + 1) a).dedup = [a] := by
  induction n with
  | zero => simp
  | succ m ih =>
    rw [List.replicate_succ, List.dedup_cons_of_mem (by simp [List.mem_replicate])]
    exact ih

theorem bucketList_zero_budget {rows : List Row} (hne : rows ≠ []) :
    bucketList 0 rows = [0] := by
  unfold bucketList bucketIdxList
  have hconst : ∀ i, bucketOf 0 rows.length i = 0 := by
    intro i
    unfold bucketOf
    rw [mul_zero]
    exact Int.zero_fdiv _
  have h1 : (List.range rows.length).map (bucketOf 0 rows.length) =
      List.replicate rows.length 0 := by
    calc (List.range rows.length).map (bucketOf 0 rows.length)
        = (List.range rows.length).map (fun _ => (0 : ℤ)) :=
          List.map_congr_left fun i _ => hconst i
      _ = List.replicate (List.range rows.length).length 0 :=
          List.map_const' _ _
      _ = List.replicate rows.length 0 := by rw [List.length_range]
  rw [h1]
  obtain ⟨n, hn⟩ : ∃ n, rows.length = n + 1 := by
    cases hL : rows.length with
    | zero => exact absurd (List.length_eq_zero.mp hL) hne
    | succ n => exact ⟨n, rfl⟩
  rw [hn, dedup_replicate_succ]
  rfl

theorem bucketRows_zero_budget (rows : List Row) :
    bucketRows 0 rows 0 = rows := by
  unfold bucketRows
  rw [List.filter_eq_self.mpr ?_]
  · exact List.enum_map_snd rows
  · intro p _
    simp [bucketOf]

theorem lttb_eval_budget_zero_length (epoch : ℚ → ℚ) (is_timestamp : Bool)
    (k : ℕ) {rows : List Row} (hne : rows ≠ []) :
    (downsample_lttb_eval epoch is_timestamp k 0 rows).length = 1 := by
  have hsne : sortByTime rows ≠ [] := by
    intro h
    exact hne (List.length_eq_zero.mp (by rw [← sortByTime_length rows, h]; rfl))
  unfold downsample_lttb_eval
  rw [List.length_map, bucketList_zero_budget hsne]
  rfl

theorem minmax_eval_budget_zero_length (epoch : ℚ → ℚ) (is_timestamp : Bool)
    {rows : List Row} (hne : rows ≠ []) :
    (downsample_minmax_eval epoch is_timestamp 0 rows).length = 1 := by
  have hsne : sortByTime rows ≠ [] := by
    intro h
    exact hne (List.length_eq_zero.mp (by rw [← sortByTime_length rows, h]; rfl))
  obtain ⟨c, cs, hcons⟩ := List.exists_cons_of_ne_nil hsne
  unfold downsample_minmax_eval
  rw [show ((0 : ℤ).fdiv 2) = 0 from Int.zero_fdiv 2]
  rw [sortByTime_length, List.length_map, bucketList_zero_budget hsne]
  rw [show List.filterMap (fun b => (bucketRows 0 (sortByTime rows) b).head?)
        [0] = [c] from ?_]
  · rfl
  · rw [List.filterMap_cons, bucketRows_zero_budget, hcons]
    rfl

theorem avg_eval_budget_zero_length (epoch : ℚ → ℚ) (is_timestamp : Bool)
    (k : ℕ) {rows : List Row} (hne : rows ≠ []) :
    (downsample_avg_eval epoch is_timestamp k 0 rows).length = 1 := by
  have hsne : sortByTime rows ≠ [] := by
    intro h
    exact hne (List.length_eq_zero.mp (by rw [← sortByTime_length rows, h]; rfl))
  unfold downsample_avg_eval
  rw [sortByTime_length, List.length_map, bucketList_zero_budget hsne]
  rfl

/-! ## The claims -/

/-- Claim C3: for every query whose windowed row count `total_count` is at
most the budget, `query_data` performs no aggregation and returns
`returned_points = total_count`, `downsampled = false` and
`downsample_method = null`. -/
theorem claim3_small_total_not_downsampled (epoch toTs : ℚ → ℚ)
    (is_timestamp : Bool) (k : ℕ) (table : List Row)
    (start_time end_time : Option ℚ) (max_points : ℤ) (method : String)
    (hle : ((windowFilter is_timestamp toTs start_time end_time
      table).length : ℤ) ≤ max_points) :
    (query_data epoch toTs is_timestamp k table start_time end_time
      max_points method).downsampled = false ∧
    (query_data epoch toTs is_timestamp k table start_time end_time
      max_points method).downsample_method = none ∧
    (query_data epoch toTs is_timestamp k table start_time end_time
      max_points method).returned_points =
      (query_data epoch toTs is_timestamp k table start_time end_time
        max_points method).total_points := by
  simp only [query_data]
  rw [if_pos hle]
  refine ⟨rfl, rfl, ?_⟩
  show (plain_query_eval epoch is_timestamp _).length = _
  unfold plain_query_eval
  rw [List.length_map, sortByTime_length]

/-- Witness for C3 at a concrete one-row table and budget 5. -/
theorem claim3_small_total_not_downsampled_witness :
    (query_data id id false 1 [⟨0, [0]⟩] none none 5 "lttb").downsampled =
      false ∧
    (query_data id id false 1 [⟨0, [0]⟩] none none 5 "lttb").downsample_method
      = none ∧
    (query_data id id false 1 [⟨0, [0]⟩] none none 5 "lttb").returned_points =
      (query_data id id false 1 [⟨0, [0]⟩] none none 5 "lttb").total_points :=
  claim3_small_total_not_downsampled id id false 1 [⟨0, [0]⟩] none none 5
    "lttb" (by decide)

/-- Claim C10: a `downsample_method` string other than `"lttb"` and
`"minmax"` is not rejected: when the windowed count exceeds the budget the
bucket-average strategy is applied (the data equals what method `"avg"`
produces), and the response echoes the supplied string in
`downsample_method`. -/
theorem claim10_unknown_method_is_avg (epoch toTs : ℚ → ℚ)
    (is_timestamp : Bool) (k : ℕ) (table : List Row)
    (start_time end_time : Option ℚ) (max_points : ℤ) (method : String)
    (hm1 : method ≠ "lttb") (hm2 : method ≠ "minmax")
    (hgt : max_points < ((windowFilter is_timestamp toTs start_time end_time
      table).length : ℤ)) :
    (query_data epoch toTs is_timestamp k table start_time end_time
      max_points method).data =
      (query_data epoch toTs is_timestamp k table start_time end_time
        max_points "avg").data ∧
    (query_data epoch toTs is_timestamp k table start_time end_time
      max_points method).downsample_method = some method ∧
    (query_data epoch toTs is_timestamp k table start_time end_time
      max_points method).downsampled = true := by
  have hnle : ¬(((windowFilter is_timestamp toTs start_time end_time
      table).length : ℤ) ≤ max_points) := not_le.mpr hgt
  simp only [query_data, if_neg hnle, if_neg hm1, if_neg hm2,
    if_neg (show ¬("avg" : String) = "lttb" by decide),
    if_neg (show ¬("avg" : String) = "minmax" by decide)]
  exact ⟨trivial, trivial, trivial⟩

/-- Witness for C10 with the unrecognised method string `"bogus"`. -/
theorem claim10_unknown_method_is_avg_witness :
    (query_data id id false 1 [⟨0, [0]⟩, ⟨10, [1]⟩] none none 1 "bogus").data =
      (query_data id id false 1 [⟨0, [0]⟩, ⟨10, [1]⟩] none none 1 "avg").data ∧
    (query_data id id false 1 [⟨0, [0]⟩, ⟨10, [1]⟩] none none 1
      "bogus").downsample_method = some "bogus" ∧
    (query_data id id false 1 [⟨0, [0]⟩, ⟨10, [1]⟩] none none 1
      "bogus").downsampled = true :=
  claim10_unknown_method_is_avg id id false 1 [⟨0, [0]⟩, ⟨10, [1]⟩] none none
    1 "bogus" (by decide) (by decide) (by decide)

/-- Claim C9 counterexample: `_to_epoch` does not raise on every value
outside None/numeric/timestamp-accessor — a value whose `float(...)`
conversion succeeds (e.g. the string `"5"`) is returned as that float. -/
theorem claim9_counterexample :
    to_epoch (PyVal.other (some 5)) = Except.ok (some 5) ∧
    to_epoch (PyVal.other (some 5)) ≠ Except.error () := by
  refine ⟨rfl, fun h => ?_⟩
  exact Except.noConfusion h

/-- Claim C9 as amended: `_to_epoch` maps None to null, native numbers to
themselves, a value with a `.timestamp()` accessor through the accessor,
and every other value through `float(...)`; it raises exactly when that
final conversion fails. -/
theorem claim9_to_epoch_amended (v : PyVal) :
    (to_epoch v = Except.error () ↔ v = PyVal.other none) ∧
    to_epoch PyVal.pynone = Except.ok none ∧
    (∀ n : ℤ, to_epoch (PyVal.pyint n) = Except.ok (some (n : ℚ))) ∧
    (∀ q : ℚ, to_epoch (PyVal.pyfloat q) = Except.ok (some q)) ∧
    (∀ q : ℚ, to_epoch (PyVal.tsObj q) = Except.ok (some q)) ∧
    (∀ q : ℚ, to_epoch (PyVal.other (some q)) = Except.ok (some q)) := by
  refine ⟨⟨?_, ?_⟩, rfl, fun _ => rfl, fun _ => rfl, fun _ => rfl,
    fun _ => rfl⟩
  · intro h
    cases v with
    | pynone => exact Except.noConfusion h
    | pyint n => exact Except.noConfusion h
    | pyfloat q => exact Except.noConfusion h
    | tsObj q => exact Except.noConfusion h
    | other o =>
      cases o with
      | none => rfl
      | some q => exact Except.noConfusion h
  · intro h
    subst h
    rfl

/-- Claim C2 counterexample: requesting the value column `"bogus"`, absent
from the schema, is not rejected before reaching the engine — queries are
still submitted and the unknown name is interpolated verbatim into the
submitted SQL. -/
theorem claim2_counterexample :
    schemaHas [("t", "BIGINT"), ("v", "DOUBLE")] "bogus" = false ∧
    plannedQueries [("t", "BIGINT"), ("v", "DOUBLE")] "data.parquet" "t"
      ["bogus"] none none 5 "lttb" id [⟨0, [0]⟩] ≠ [] ∧
    strContains ((plannedQueries [("t", "BIGINT"), ("v", "DOUBLE")]
      "data.parquet" "t" ["bogus"] none none 5 "lttb" id
      [⟨0, [0]⟩]).getD 1 "") "bogus" = true := by
  refine ⟨by decide, ?_, by decide⟩
  exact List.cons_ne_nil _ _

/-- Claim C2 as amended: `query_data` performs no schema validation — a
column absent from the cached schema gets type `"UNKNOWN"` (hence is
treated as non-timestamp), and both the count query and the main query are
still submitted to the engine. -/
theorem claim2_no_schema_validation (schema : Schema) (column : String)
    (hc : schema.lookup column = none) (filepath time_column : String)
    (value_cols : List String) (start_time end_time : Option ℚ)
    (max_points : ℤ) (method : String) (toTs : ℚ → ℚ) (table : List Row) :
    get_column_type schema column = "UNKNOWN" ∧
    is_timestamp_type (get_column_type schema column) = false ∧
    (plannedQueries schema filepath time_column value_cols start_time
      end_time max_points method toTs table).length = 2 := by
  have h1 : get_column_type schema column = "UNKNOWN" := by
    unfold get_column_type
    rw [hc]
    rfl
  refine ⟨h1, ?_, rfl⟩
  rw [h1]
  decide

/-- Witness for the amended C2 at a concrete schema missing `"bogus"`. -/
theorem claim2_no_schema_validation_witness :
    get_column_type [("t", "BIGINT")] "bogus" = "UNKNOWN" ∧
    is_timestamp_type (get_column_type [("t", "BIGINT")] "bogus") = false ∧
    (plannedQueries [("t", "BIGINT")] "f.parquet" "t" ["bogus"] none none 5
      "lttb" id []).length = 2 :=
  claim2_no_schema_validation [("t", "BIGINT")] "bogus" (by decide)
    "f.parquet" "t" ["bogus"] none none 5 "lttb" id []

/-- Claim C8 counterexample: with the invalid budget `max_points = -1` an
empty window (here `start_time > end_time`) still succeeds with zero total
points and empty data, but `0 <= -1` fails, so the downsampling branch runs
and the response reports `downsampled = true` with the method echoed —
contradicting the claim's `downsampled = false`. -/
theorem claim8_counterexample :
    windowFilter false id (some 3) (some 1) [⟨2, [0]⟩] = [] ∧
    (query_data id id false 1 [⟨2, [0]⟩] (some 3) (some 1) (-1)
      "lttb").total_points = 0 ∧
    (query_data id id false 1 [⟨2, [0]⟩] (some 3) (some 1) (-1)
      "lttb").data = [] ∧
    (query_data id id false 1 [⟨2, [0]⟩] (some 3) (some 1) (-1)
      "lttb").returned_points = 0 ∧
    (query_data id id false 1 [⟨2, [0]⟩] (some 3) (some 1) (-1)
      "lttb").downsampled = true ∧
    (query_data id id false 1 [⟨2, [0]⟩] (some 3) (some 1) (-1)
      "lttb").downsample_method = some "lttb" :=
  ⟨by decide, by decide, by decide, by decide, by decide, by decide⟩

/-- Claim C8 as amended: for every query with a budget in the valid range
(`max_points ≥ 0`), a window matching no rows — in particular every window
with `start_time > end_time` — succeeds rather than erring:
`total_points = 0`, `downsampled = false`, no aggregation
(`downsample_method = null`), empty data, and the materialiser yields an
empty ordered sequence for the time column and for every requested value
column; with a negative budget the empty row set takes the downsampling
branch and the response reports `downsampled = true` instead. -/
theorem claim8_empty_window_succeeds (epoch toTs : ℚ → ℚ)
    (is_timestamp : Bool) (k : ℕ) (table : List Row)
    (start_time end_time : Option ℚ) (max_points : ℤ) (method : String)
    (time_col : String) (value_cols : List String)
    (hmono : StrictMono toTs) (hB : 0 ≤ max_points) :
    (∀ s e : ℚ, e < s →
      windowFilter is_timestamp toTs (some s) (some e) table = []) ∧
    (windowFilter is_timestamp toTs start_time end_time table = [] →
      (query_data epoch toTs is_timestamp k table start_time end_time
        max_points method).total_points = 0 ∧
      (query_data epoch toTs is_timestamp k table start_time end_time
        max_points method).downsampled = false ∧
      (query_data epoch toTs is_timestamp k table start_time end_time
        max_points method).downsample_method = none ∧
      (query_data epoch toTs is_timestamp k table start_time end_time
        max_points method).data = [] ∧
      (query_data epoch toTs is_timestamp k table start_time end_time
        max_points method).returned_points = 0) ∧
    results_to_columnar [] time_col value_cols =
      (time_col, []) :: value_cols.map (fun c => (c, [])) := by
  refine ⟨fun s e h => windowFilter_eq_nil_of_lt _ _ hmono h table, ?_, rfl⟩
  intro hnil
  have hle : ((windowFilter is_timestamp toTs start_time end_time
      table).length : ℤ) ≤ max_points := by
    rw [hnil]
    simpa using hB
  simp only [query_data]
  rw [if_pos hle, hnil]
  exact ⟨rfl, rfl, rfl, rfl, rfl⟩

/-- Witness for C8: a reversed window over a one-row table. -/
theorem claim8_empty_window_succeeds_witness :
    (∀ s e : ℚ, e < s →
      windowFilter false id (some s) (some e) [⟨2, [0]⟩] = []) ∧
    (windowFilter false id (some 3) (some 1) [⟨2, [0]⟩] = [] →
      (query_data id id false 1 [⟨2, [0]⟩] (some 3) (some 1) 2
        "lttb").total_points = 0 ∧
      (query_data id id false 1 [⟨2, [0]⟩] (some 3) (some 1) 2
        "lttb").downsampled = false ∧
      (query_data id id false 1 [⟨2, [0]⟩] (some 3) (some 1) 2
        "lttb").downsample_method = none ∧
      (query_data id id false 1 [⟨2, [0]⟩] (some 3) (some 1) 2
        "lttb").data = [] ∧
      (query_data id id false 1 [⟨2, [0]⟩] (some 3) (some 1) 2
        "lttb").returned_points = 0) ∧
    results_to_columnar [] "ts" ["v"] =
      ("ts", []) :: ["v"].map (fun c => (c, [])) :=
  claim8_empty_window_succeeds id id false 1 [⟨2, [0]⟩] (some 3) (some 1) 2
    "lttb" "ts" ["v"] strictMono_id (by decide)

/-- Claim C7 counterexample: with the invalid budget `max_points = -1` the
lttb path produces negative bucket indices — over rows at times 0 and 10
the buckets are 0 and -1, and `ORDER BY bucket` emits the times in the
order [10, 0], which is not non-decreasing. -/
theorem claim7_counterexample :
    (query_data id id false 1 [⟨0, [0]⟩, ⟨10, [1]⟩] none none (-1)
      "lttb").data.map Row.time = [10, 0] ∧
    ¬ List.Sorted (· ≤ ·) ((query_data id id false 1 [⟨0, [0]⟩, ⟨10, [1]⟩]
      none none (-1) "lttb").data.map Row.time) :=
  ⟨by decide, by decide⟩

/-- Claim C7 as amended: for every query with a budget in the valid range
(`max_points ≥ 0`) — downsampled by any of the three methods or served
verbatim — the returned time-axis values are non-decreasing (with the
engine's epoch conversion being monotone); a negative budget can reverse
the lttb output order through negative bucket indices. -/
theorem claim7_time_values_monotone (epoch toTs : ℚ → ℚ)
    (is_timestamp : Bool) (k : ℕ) (table : List Row)
    (start_time end_time : Option ℚ) (max_points : ℤ) (method : String)
    (he : Monotone epoch) (hB : 0 ≤ max_points) :
    List.Sorted (· ≤ ·) ((query_data epoch toTs is_timestamp k table
      start_time end_time max_points method).data.map Row.time) := by
  have htime : ∀ a b : ℚ, a ≤ b →
      timeOut is_timestamp epoch a ≤ timeOut is_timestamp epoch b := by
    intro a b h
    unfold timeOut
    split
    · exact he h
    · exact h
  simp only [query_data]
  split
  · show List.Sorted (· ≤ ·) ((plain_query_eval _ _ _).map Row.time)
    unfold plain_query_eval
    rw [List.map_map]
    apply List.pairwise_map.mpr
    exact (sortByTime_sorted _).imp fun h => htime _ _ h
  · split
    · exact lttb_times_sorted epoch he is_timestamp k hB _
    split
    · unfold downsample_minmax_eval
      exact sortByTime_map_time_sorted _
    · unfold downsample_avg_eval
      exact sortByTime_map_time_sorted _

/-- Witness for C7 on an unsorted two-row table downsampled by `minmax`. -/
theorem claim7_time_values_monotone_witness :
    List.Sorted (· ≤ ·) ((query_data id id false 1 [⟨10, [1]⟩, ⟨0, [0]⟩]
      none none 1 "minmax").data.map Row.time) :=
  claim7_time_values_monotone id id false 1 [⟨10, [1]⟩, ⟨0, [0]⟩] none none 1
    "minmax" monotone_id (by decide)

/-- Claim C1 counterexample: a request with budget `max_points = 0` over a
two-row window is not rejected — the count query and a data query are still
planned, and `query_data` returns a successful downsampled result with one
point (and no divide-by-zero arises, since the bucket expression divides by
the row count, not the bucket count). -/
theorem claim1_counterexample :
    plannedQueries [("t", "BIGINT")] "data.parquet" "t" ["v"] none none 0
      "lttb" id [⟨0, [0]⟩, ⟨10, [1]⟩] ≠ [] ∧
    (query_data id id false 1 [⟨0, [0]⟩, ⟨10, [1]⟩] none none 0
      "lttb").returned_points = 1 ∧
    (query_data id id false 1 [⟨0, [0]⟩, ⟨10, [1]⟩] none none 0
      "lttb").downsampled = true ∧
    (query_data id id false 1 [⟨0, [0]⟩, ⟨10, [1]⟩] none none 0
      "lttb").total_points = 2 :=
  ⟨List.cons_ne_nil _ _, by decide, by decide, by decide⟩

/-- Claim C1 as amended: `query_data` performs no budget validation — for
every `max_points ≤ 0` with a non-empty window both queries are still
submitted and a successful downsampled response is returned (no
divide-by-zero arises, because the bucket expression divides by the row
count, not the bucket count); in the boundary case `max_points = 0` every
row falls into bucket 0 and exactly one aggregated point is returned for
every method. -/
theorem claim1_budget_nonpositive_not_rejected (epoch toTs : ℚ → ℚ)
    (schema : Schema) (filepath time_column : String)
    (value_cols : List String) (k : ℕ) (table : List Row)
    (start_time end_time : Option ℚ) (method : String) {max_points : ℤ}
    (hB : max_points ≤ 0)
    (hne : windowFilter (is_timestamp_type (get_column_type schema
      time_column)) toTs start_time end_time table ≠ []) :
    (plannedQueries schema filepath time_column value_cols start_time
      end_time max_points method toTs table).length = 2 ∧
    (query_data epoch toTs (is_timestamp_type (get_column_type schema
      time_column)) k table start_time end_time max_points
      method).downsampled = true ∧
    (query_data epoch toTs (is_timestamp_type (get_column_type schema
      time_column)) k table start_time end_time 0 method).returned_points =
      1 := by
  have hpos := List.length_pos.mpr hne
  have hgt : ¬(((windowFilter (is_timestamp_type (get_column_type schema
      time_column)) toTs start_time end_time table).length : ℤ) ≤
      max_points) := by omega
  have hgt0 : ¬(((windowFilter (is_timestamp_type (get_column_type schema
      time_column)) toTs start_time end_time table).length : ℤ) ≤ 0) := by
    omega
  refine ⟨rfl, ?_, ?_⟩
  · simp only [query_data]
    rw [if_neg hgt]
  · simp only [query_data]
    rw [if_neg hgt0]
    split
    · exact lttb_eval_budget_zero_length _ _ _ hne
    split
    · exact minmax_eval_budget_zero_length _ _ hne
    · exact avg_eval_budget_zero_length _ _ _ hne

/-- Witness for the amended C1 at a concrete two-row table and budget -1. -/
theorem claim1_budget_nonpositive_not_rejected_witness :
    (plannedQueries [("t", "BIGINT")] "data.parquet" "t" ["v"] none none
      (-1) "minmax" id [⟨0, [0]⟩, ⟨10, [1]⟩]).length = 2 ∧
    (query_data id id (is_timestamp_type (get_column_type [("t", "BIGINT")]
      "t")) 1 [⟨0, [0]⟩, ⟨10, [1]⟩] none none (-1) "minmax").downsampled =
      true ∧
    (query_data id id (is_timestamp_type (get_column_type [("t", "BIGINT")]
      "t")) 1 [⟨0, [0]⟩, ⟨10, [1]⟩] none none 0 "minmax").returned_points =
      1 :=
  claim1_budget_nonpositive_not_rejected id id [("t", "BIGINT")]
    "data.parquet" "t" ["v"] 1 [⟨0, [0]⟩, ⟨10, [1]⟩] none none "minmax"
    (by decide) (by decide)

theorem fdiv_two_pos {m : ℤ} (hm : 2 ≤ m) : 1 ≤ m.fdiv 2 := by
  rw [Int.fdiv_eq_ediv _ (by norm_num)]
  rw [Int.le_ediv_iff_mul_le (by norm_num)]
  omega

theorem bucketOf_eq_floor (B : ℤ) (total i : ℕ) :
    bucketOf B total i = ⌊((i : ℚ) * (B : ℚ)) / (total : ℚ)⌋ := by
  unfold bucketOf
  have hcast : ((i : ℚ) * (B : ℚ)) = (((i : ℤ) * B : ℤ) : ℚ) := by
    push_cast
    ring
  rw [hcast, Rat.floor_intCast_div_natCast]
  exact Int.fdiv_eq_ediv _ (by positivity)

/-- Claim C4 counterexample: with budget 1 and method `minmax` over a
two-row window, `total_count > budget` holds but the response has one
point, exceeding `budget // 2 = 0`. -/
theorem claim4_counterexample :
    1 < ((query_data id id false 1 [⟨0, [0]⟩, ⟨10, [1]⟩] none none 1
      "minmax").total_points : ℤ) ∧
    ¬(((query_data id id false 1 [⟨0, [0]⟩, ⟨10, [1]⟩] none none 1
      "minmax").returned_points : ℤ) ≤ (1 : ℤ).fdiv 2) :=
  ⟨by decide, by decide⟩

/-- Claim C4 as amended: when the windowed count exceeds the budget,
`returned_points ≤ budget` for every method other than `minmax` provided
`budget ≥ 1`, and `returned_points ≤ budget // 2` for `minmax` provided
`budget ≥ 2` (for `budget ≤ 1` the `minmax` bucket count is 0 and a single
point is returned); rows are bucketed by
`bucket = floor((rank - 1) * bucket_count / total_rows)` (here `i = rank - 1`
is the 0-based rank by ascending time). -/
theorem claim4_bounded_output (epoch toTs : ℚ → ℚ) (is_timestamp : Bool)
    (k : ℕ) (table : List Row) (start_time end_time : Option ℚ)
    (max_points : ℤ)
    (hgt : max_points < ((windowFilter is_timestamp toTs start_time end_time
      table).length : ℤ)) :
    (∀ method, method ≠ "minmax" → 1 ≤ max_points →
      (((query_data epoch toTs is_timestamp k table start_time end_time
        max_points method).returned_points : ℤ)) ≤ max_points) ∧
    (2 ≤ max_points →
      (((query_data epoch toTs is_timestamp k table start_time end_time
        max_points "minmax").returned_points : ℤ)) ≤ max_points.fdiv 2) ∧
    (∀ (B : ℤ) (total i : ℕ),
      bucketOf B total i = ⌊((i : ℚ) * (B : ℚ)) / (total : ℚ)⌋) := by
  have hnle : ¬(((windowFilter is_timestamp toTs start_time end_time
      table).length : ℤ) ≤ max_points) := not_le.mpr hgt
  refine ⟨?_, ?_, fun B total i => bucketOf_eq_floor B total i⟩
  · intro method hm hB1
    rcases eq_or_ne method "lttb" with hl | hl
    · subst hl
      simp only [query_data]
      rw [if_neg hnle]
      show ((downsample_lttb_eval epoch is_timestamp k max_points
        (windowFilter is_timestamp toTs start_time end_time
          table)).length : ℤ) ≤ max_points
      unfold downsample_lttb_eval
      rw [List.length_map]
      exact bucketList_length_le hB1 _
    · simp only [query_data]
      rw [if_neg hnle, if_neg hl, if_neg hm]
      show ((downsample_avg_eval epoch is_timestamp k max_points
        (windowFilter is_timestamp toTs start_time end_time
          table)).length : ℤ) ≤ max_points
      unfold downsample_avg_eval
      rw [sortByTime_length, List.length_map]
      exact bucketList_length_le hB1 _
  · intro hB2
    simp only [query_data]
    rw [if_neg hnle]
    show ((downsample_minmax_eval epoch is_timestamp max_points
      (windowFilter is_timestamp toTs start_time end_time
        table)).length : ℤ) ≤ max_points.fdiv 2
    unfold downsample_minmax_eval
    rw [sortByTime_length, List.length_map]
    have h1 := List.length_filterMap_le
      (fun b => (bucketRows (max_points.fdiv 2)
        (sortByTime (windowFilter is_timestamp toTs start_time end_time
          table)) b).head?)
      (bucketList (max_points.fdiv 2)
        (sortByTime (windowFilter is_timestamp toTs start_time end_time
          table)))
    have h2 := bucketList_length_le (fdiv_two_pos hB2)
      (sortByTime (windowFilter is_timestamp toTs start_time end_time table))
    omega

/-- Witness for the amended C4: three rows, budget 2, methods lttb and
minmax. -/
theorem claim4_bounded_output_witness :
    (∀ method, method ≠ "minmax" → 1 ≤ (2 : ℤ) →
      (((query_data id id false 1 [⟨0, [0]⟩, ⟨5, [1]⟩, ⟨10, [2]⟩] none none 2
        method).returned_points : ℤ)) ≤ 2) ∧
    (2 ≤ (2 : ℤ) →
      (((query_data id id false 1 [⟨0, [0]⟩, ⟨5, [1]⟩, ⟨10, [2]⟩] none none 2
        "minmax").returned_points : ℤ)) ≤ (2 : ℤ).fdiv 2) ∧
    (∀ (B : ℤ) (total i : ℕ),
      bucketOf B total i = ⌊((i : ℚ) * (B : ℚ)) / (total : ℚ)⌋) :=
  claim4_bounded_output id id false 1 [⟨0, [0]⟩, ⟨5, [1]⟩, ⟨10, [2]⟩] none
    none 2 (by decide)

/-- Claim C5 counterexample: for a non-temporal time column the `avg`
strategy emits the arithmetic mean of the bucket's raw time values, not the
earliest one — over the rows at times 0 and 10 (a single bucket) it returns
time 5, while the earliest time of the bucket is 0. -/
theorem claim5_counterexample :
    (query_data id id false 1 [⟨0, [0]⟩, ⟨10, [1]⟩] none none 1 "avg").data =
      [⟨5, [1 / 2]⟩] ∧
    minTimeD (windowFilter false id none none [⟨0, [0]⟩, ⟨10, [1]⟩]) = 0 ∧
    (5 : ℚ) ≠ 0 := by
  refine ⟨?_, by decide, by norm_num⟩
  have hnle : ¬(((windowFilter false id none none
      [⟨0, [0]⟩, ⟨10, [1]⟩]).length : ℤ) ≤ 1) := by decide
  simp only [query_data]
  rw [if_neg hnle, if_neg (show ¬("avg" : String) = "lttb" by decide),
    if_neg (show ¬("avg" : String) = "minmax" by decide)]
  show downsample_avg_eval id false 1 1
    (windowFilter false id none none [⟨0, [0]⟩, ⟨10, [1]⟩]) = [⟨5, [1 / 2]⟩]
  have hwf : windowFilter false id none none [⟨0, [0]⟩, ⟨10, [1]⟩] =
      [⟨0, [0]⟩, ⟨10, [1]⟩] := by decide
  rw [hwf]
  simp only [downsample_avg_eval]
  have hsort : sortByTime [⟨0, [0]⟩, ⟨10, [1]⟩] = [⟨0, [0]⟩, ⟨10, [1]⟩] := by
    decide
  rw [hsort]
  have hbl : bucketList 1 [⟨0, [0]⟩, ⟨10, [1]⟩] = [0] := by decide
  rw [hbl]
  have hbr : bucketRows 1 [⟨0, [0]⟩, ⟨10, [1]⟩] 0 = [⟨0, [0]⟩, ⟨10, [1]⟩] := by
    decide
  rw [List.map_cons, List.map_nil, hbr]
  rw [show ∀ r : Row, sortByTime [r] = [r] from fun _ => rfl]
  have htime : (if false = true then id (minTimeD [⟨0, [0]⟩, ⟨10, [1]⟩])
      else meanQ (([⟨0, [0]⟩, ⟨10, [1]⟩] : List Row).map Row.time)) =
      (5 : ℚ) := by
    norm_num [meanQ]
  have hvals : avgVals 1 [⟨0, [0]⟩, ⟨10, [1]⟩] = [1 / 2] := by
    norm_num [avgVals, colAvg, meanQ, List.range_succ]
  rw [htime, hvals]

/-- Claim C5 as amended: under the `avg` strategy `bucket_count = budget`;
each occurring bucket emits exactly one row whose time is the epoch of the
bucket's earliest time for temporal columns but the arithmetic mean of the
raw times for non-temporal columns, and whose value columns are the
arithmetic mean over the bucket. -/
theorem claim5_avg_bucket_semantics (epoch toTs : ℚ → ℚ)
    (is_timestamp : Bool) (k : ℕ) (table : List Row)
    (start_time end_time : Option ℚ) (max_points : ℤ) (method : String)
    (hgt : max_points < ((windowFilter is_timestamp toTs start_time end_time
      table).length : ℤ)) (hm1 : method ≠ "lttb") (hm2 : method ≠ "minmax") :
    ((query_data epoch toTs is_timestamp k table start_time end_time
      max_points method).data).Perm
      ((bucketList max_points (sortByTime (windowFilter is_timestamp toTs
        start_time end_time table))).map fun b =>
          avgBucketSpecRow epoch is_timestamp k
            (bucketRows max_points (sortByTime (windowFilter is_timestamp
              toTs start_time end_time table)) b)) ∧
    (query_data epoch toTs is_timestamp k table start_time end_time
      max_points method).returned_points =
      (bucketList max_points (sortByTime (windowFilter is_timestamp toTs
        start_time end_time table))).length := by
  have hnle : ¬(((windowFilter is_timestamp toTs start_time end_time
      table).length : ℤ) ≤ max_points) := not_le.mpr hgt
  simp only [query_data]
  rw [if_neg hnle, if_neg hm1, if_neg hm2]
  constructor
  · show (downsample_avg_eval epoch is_timestamp k max_points
      (windowFilter is_timestamp toTs start_time end_time table)).Perm _
    unfold downsample_avg_eval
    exact sortByTime_perm _
  · show (downsample_avg_eval epoch is_timestamp k max_points
      (windowFilter is_timestamp toTs start_time end_time table)).length = _
    unfold downsample_avg_eval
    rw [sortByTime_length, List.length_map]

/-- Witness for the amended C5 at a concrete two-row table and budget 1. -/
theorem claim5_avg_bucket_semantics_witness :
    ((query_data id id false 1 [⟨0, [0]⟩, ⟨10, [1]⟩] none none 1
      "avg").data).Perm
      ((bucketList 1 (sortByTime (windowFilter false id none none
        [⟨0, [0]⟩, ⟨10, [1]⟩]))).map fun b =>
          avgBucketSpecRow id false 1
            (bucketRows 1 (sortByTime (windowFilter false id none none
              [⟨0, [0]⟩, ⟨10, [1]⟩])) b)) ∧
    (query_data id id false 1 [⟨0, [0]⟩, ⟨10, [1]⟩] none none 1
      "avg").returned_points =
      (bucketList 1 (sortByTime (windowFilter false id none none
        [⟨0, [0]⟩, ⟨10, [1]⟩]))).length :=
  claim5_avg_bucket_semantics id id false 1 [⟨0, [0]⟩, ⟨10, [1]⟩] none none 1
    "avg" (by decide) (by decide) (by decide)

/-- Claim C6 counterexample: the user-supplied `time_column` string is not
validated against the schema — a string that is not a column of the file
(here one that even breaks out of its double quoting) appears verbatim in
the first SQL text submitted to the engine. -/
theorem claim6_counterexample :
    schemaHas [("t", "BIGINT")] "x\" OR 1=1 --" = false ∧
    strContains ((plannedQueries [("t", "BIGINT")] "data.parquet"
      "x\" OR 1=1 --" ["v"] (some 0) none 0 "lttb" id
      [⟨1, [0]⟩, ⟨2, [0]⟩]).getD 0 "") "x\" OR 1=1 --" = true :=
  ⟨by decide, by decide⟩

/-- Claim C6 as amended: identifiers are double-quoted but never checked
against the Schema Inspector's descriptor set — for every request the
user-supplied `time_column` string and every entry of `value_columns`
reach one of the submitted SQL texts verbatim. -/
theorem claim6_time_column_reaches_sql (schema : Schema)
    (filepath time_column : String) (value_cols : List String)
    (start_time end_time : Option ℚ) (max_points : ℤ) (method : String)
    (toTs : ℚ → ℚ) (table : List Row) :
    ∃ q ∈ plannedQueries schema filepath time_column value_cols start_time
      end_time max_points method toTs table,
      strContains q time_column = true ∧
      ∀ c ∈ value_cols, strContains q c = true := by
  refine ⟨_, List.mem_cons_of_mem _ (List.mem_cons_self _ _), ?_, ?_⟩
  · split
    · exact plain_sql_contains_time_column _ _ _ _ _
    split
    · exact lttb_sql_contains_time_column _ _ _ _ _ _
    split
    · exact minmax_sql_contains_time_column _ _ _ _ _ _
    · exact avg_sql_contains_time_column _ _ _ _ _ _
  · intro c hc
    split
    · exact plain_sql_contains_value_column _ _ _ _ hc
    split
    · exact lttb_sql_contains_value_column _ _ _ _ _ hc
    split
    · exact minmax_sql_contains_value_column _ _ _ _ _ hc
    · exact avg_sql_contains_value_column _ _ _ _ _ hc

/-- Witness for the amended C6 at concrete request strings. -/
theorem claim6_time_column_reaches_sql_witness :
    ∃ q ∈ plannedQueries [("t", "BIGINT")] "f.parquet" "tc" ["v1", "v2"]
      none none 5 "lttb" id [],
      strContains q "tc" = true ∧
      ∀ c ∈ ["v1", "v2"], strContains q c = true :=
  claim6_time_column_reaches_sql [("t", "BIGINT")] "f.parquet" "tc"
    ["v1", "v2"] none none 5 "lttb" id []

end PlotPurr
